import Mathlib

set_option maxRecDepth 65536

/-!
Shallow embedding of the entity-driven Angular scaffold generator
(`generate-angular.js`): entity lexicon and extractor, lexical inflector,
issue-body parser, OpenAI-assisted per-entity file generation with template
fallback, and the SPA profile's app-module / README emission.

JavaScript strings are modelled as `List Char`; the regular expressions the
script builds (`\bkw s?\b` and `\bbase(?:y|ies)\b`, plus the heading patterns
`### H\s*\n\s*(.+)`) are modelled by executable word-boundary and
section-capture scanners with the same matching semantics.
-/

namespace AngularGen

/-- Coerce a Lean string literal to the `List Char` representation used for
JavaScript strings throughout this development. -/
def str (s : String) : List Char := s.data

/-- A JavaScript regex word character (`\w`, i.e. `[A-Za-z0-9_]`). -/
def isWordChar (c : Char) : Bool := c.isAlpha || c.isDigit || c = '_'

/-- A JavaScript whitespace character (`\s`), restricted to ASCII. -/
def isSpaceChar (c : Char) : Bool :=
  c = ' ' || c = '\t' || c = '\n' || c = '\r' || c = '\x0b' || c = '\x0c'

/-- Does `p` occur as a prefix of `l`? (JS `String.prototype.startsWith`.) -/
def startsWith : List Char → List Char → Bool
  | [], _ => true
  | _ :: _, [] => false
  | a :: as, b :: bs => a = b && startsWith as bs

/-- Does `needle` occur as a contiguous substring of the second argument?
(JS `String.prototype.includes`.) -/
def containsSub (needle : List Char) : List Char → Bool
  | [] => startsWith needle []
  | c :: rest => startsWith needle (c :: rest) || containsSub needle rest

/-- A word boundary holds before/after a word character when the neighbouring
character (`none` at the ends of the text) is not a word character. -/
def boundaryOk : Option Char → Bool
  | none => true
  | some c => !(isWordChar c)

/-- The word `w` matches at the head of `t` with a word boundary after it. -/
def matchHere (w t : List Char) : Bool :=
  startsWith w t && boundaryOk ((t.drop w.length).head?)

/-- Scan `t` for a word-bounded occurrence of `w`; `prev` is the character
immediately before the current position. -/
def occursAux (w : List Char) (prev : Option Char) : List Char → Bool
  | [] => boundaryOk prev && matchHere w []
  | c :: rest => (boundaryOk prev && matchHere w (c :: rest)) || occursAux w (some c) rest

/-- `\bw\b` tests true on `text` (for `w` made of word characters). -/
def wordOccurs (w text : List Char) : Bool := occursAux w none text

/-- The per-keyword regex test of `extractEntitiesFromDescription`:
keywords ending in `y` match `\bbase(?:y|ies)\b`, all others `\bkw s?\b`. -/
def keywordTest (keyword text : List Char) : Bool :=
  if keyword.getLast? = some 'y' then
    let base := keyword.dropLast
    wordOccurs (base ++ ['y']) text || wordOccurs (base ++ ['i', 'e', 's']) text
  else
    wordOccurs keyword text || wordOccurs (keyword ++ ['s']) text

/-- The fixed entity lexicon `entityKeywords` of `generate-angular.js`,
in object-literal (iteration) order. -/
def entityKeywords : List (List Char × List (List Char)) :=
  [ (str "user", [str "user", str "account", str "profile", str "member"]),
    (str "product", [str "product", str "item", str "goods", str "merchandise"]),
    (str "order", [str "order", str "purchase", str "transaction"]),
    (str "post", [str "post", str "article", str "blog"]),
    (str "comment", [str "comment", str "review", str "feedback"]),
    (str "task", [str "task", str "todo", str "assignment", str "job"]),
    (str "project", [str "project", str "workspace"]),
    (str "customer", [str "customer", str "client"]),
    (str "invoice", [str "invoice", str "bill", str "receipt"]),
    (str "payment", [str "payment", str "transaction"]),
    (str "booking", [str "booking", str "reservation", str "appointment"]),
    (str "event", [str "event", str "meeting", str "conference"]),
    (str "category", [str "category", str "tag", str "label"]),
    (str "message", [str "message", str "chat", str "conversation"]),
    (str "notification", [str "notification", str "alert"]),
    (str "report", [str "report", str "analytics", str "statistics"]),
    (str "document", [str "document", str "file", str "attachment"]),
    (str "inventory", [str "inventory", str "stock", str "warehouse"]),
    (str "employee", [str "employee", str "staff", str "worker"]),
    (str "department", [str "department", str "division", str "team"]) ]

/-- One iteration of the outer loop of `extractEntitiesFromDescription`:
if any keyword of the entry matches, push the canonical name unless already
recorded (the inner `break` makes the effect of a match independent of which
keyword matched first). -/
def entityStep (descriptionLower : List Char) (entities : List (List Char))
    (entry : List Char × List (List Char)) : List (List Char) :=
  if entry.2.any (fun keyword => keywordTest keyword descriptionLower) then
    if entities.contains entry.1 then entities else entities ++ [entry.1]
  else entities

/-- The entity list accumulated by the keyword loop, before the default-entity
fallback and the length cap. -/
def rawEntities (descriptionLower : List Char) : List (List Char) :=
  entityKeywords.foldl (entityStep descriptionLower) []

/-- `extractEntitiesFromDescription`: lowercase the description, scan the
lexicon, default to `"item"` when nothing matched, cap at 3 entities. -/
def extractEntitiesFromDescription (description : List Char) : List (List Char) :=
  let descriptionLower := description.map Char.toLower
  let entities := rawEntities descriptionLower
  let entities := if entities = [] then entities ++ [str "item"] else entities
  entities.take 3

/-- `capitalize`: upper-case the first character. -/
def capitalize : List Char → List Char
  | [] => []
  | c :: rest => c.toUpper :: rest

/-- `pluralize`: trailing `y` → `ies`; trailing `s` unchanged; else append `s`. -/
def pluralize (entity : List Char) : List Char :=
  if entity.getLast? = some 'y' then entity.dropLast ++ str "ies"
  else if entity.getLast? = some 's' then entity
  else entity ++ str "s"

/-- Remove JS `\s` whitespace from both ends (JS `String.prototype.trim`). -/
def trimChars (l : List Char) : List Char :=
  ((l.dropWhile isSpaceChar).reverse.dropWhile isSpaceChar).reverse

/-- Match the tail `\s*\n\s*(.+)` of a heading regex at the current position:
skip whitespace that contains at least one newline, then capture the rest of
the first line holding a non-whitespace character. Returns the capture. -/
def captureAfter (rest : List Char) : Option (List Char) :=
  let ws := rest.takeWhile isSpaceChar
  let rem := rest.drop ws.length
  if ws.contains '\n' && !rem.isEmpty then some (rem.takeWhile (· ≠ '\n')) else none

/-- Leftmost match of the regex `heading\s*\n\s*(.+)` over the whole text,
returning the first capture group (JS `text.match(re)` then `m[1]`). -/
def matchSection (heading : List Char) : List Char → Option (List Char)
  | [] => none
  | c :: rest =>
    match (if startsWith heading (c :: rest)
           then captureAfter ((c :: rest).drop heading.length) else none) with
    | some cap => some cap
    | none => matchSection heading rest

/-- The configuration record built by `parseIssueBody`. -/
structure IssueConfig where
  features : List (List Char)
  styling : List Char
  version : List Char
  architecture : List Char
  description : Option (List Char)
deriving DecidableEq

/-- One checkbox probe of `parseIssueBody`: a feature name is pushed when its
`- [X]`/`- [x]` marker occurs anywhere in the body. -/
def featureFlag (cond : Bool) (name : List Char) : List (List Char) :=
  if cond then [name] else []

/-- The 18 checkbox markers `parseIssueBody` probes for, in probe order. -/
def featureMarkers : List (List Char) :=
  [ str "- [X] Routing", str "- [x] Routing",
    str "- [X] State Management", str "- [x] State Management",
    str "- [X] HTTP Client", str "- [x] HTTP Client",
    str "- [X] Forms", str "- [x] Forms",
    str "- [X] Authentication", str "- [x] Authentication",
    str "- [X] Unit Tests", str "- [x] Unit Tests",
    str "- [X] E2E Tests", str "- [x] E2E Tests",
    str "- [X] Docker", str "- [x] Docker",
    str "- [X] PWA", str "- [x] PWA" ]

/-- The fixed vocabulary of feature names `parseIssueBody` can emit. -/
def featureNames : List (List Char) :=
  [ str "routing", str "ngrx", str "http", str "forms", str "auth",
    str "tests", str "e2e", str "docker", str "pwa" ]

/-- `parseIssueBody`: each field is extracted by an independent regex search
over the whole body, with documented defaults; features are collected from
checkbox markers in a fixed probe order. -/
def parseIssueBody (issueBody : List Char) : IssueConfig :=
  let versionMatch := matchSection (str "### Angular Version") issueBody
  let stylingMatch := matchSection (str "### Styling Framework") issueBody
  let archMatch := matchSection (str "### Project Structure") issueBody
  let descMatch := matchSection (str "### Project Description") issueBody
  let features :=
    featureFlag (containsSub (str "- [X] Routing") issueBody ||
      containsSub (str "- [x] Routing") issueBody) (str "routing") ++
    featureFlag (containsSub (str "- [X] State Management") issueBody ||
      containsSub (str "- [x] State Management") issueBody) (str "ngrx") ++
    featureFlag (containsSub (str "- [X] HTTP Client") issueBody ||
      containsSub (str "- [x] HTTP Client") issueBody) (str "http") ++
    featureFlag (containsSub (str "- [X] Forms") issueBody ||
      containsSub (str "- [x] Forms") issueBody) (str "forms") ++
    featureFlag (containsSub (str "- [X] Authentication") issueBody ||
      containsSub (str "- [x] Authentication") issueBody) (str "auth") ++
    featureFlag (containsSub (str "- [X] Unit Tests") issueBody ||
      containsSub (str "- [x] Unit Tests") issueBody) (str "tests") ++
    featureFlag (containsSub (str "- [X] E2E Tests") issueBody ||
      containsSub (str "- [x] E2E Tests") issueBody) (str "e2e") ++
    featureFlag (containsSub (str "- [X] Docker") issueBody ||
      containsSub (str "- [x] Docker") issueBody) (str "docker") ++
    featureFlag (containsSub (str "- [X] PWA") issueBody ||
      containsSub (str "- [x] PWA") issueBody) (str "pwa")
  { features := features
    styling := match stylingMatch with
      | some m => trimChars m
      | none => str "CSS"
    version := match versionMatch with
      | some m => trimChars m
      | none => str "Angular 17 (Latest)"
    architecture := match archMatch with
      | some m => trimChars m
      | none => str "Standalone Components"
    description := match descMatch with
      | some m => some (trimChars m)
      | none => none }

/-- The ambient state `generateCodeWithAI` reads: whether loading the OpenAI
library succeeded, the `OPENAI_API_KEY` environment value, and the outcome of
the service call (an exception or the response message content). -/
structure AIEnv where
  openaiAvailable : Bool
  apiKey : Option (List Char)
  callResult : Except (List Char) (List Char)

/-- `generateCodeWithAI`: yields `none` (JS `null`) when the library is
unavailable, the API key is unset, or the service call throws; otherwise the
trimmed response content. The prompt does not influence availability. -/
def generateCodeWithAI (env : AIEnv) (_prompt : List Char) : Option (List Char) :=
  if !env.openaiAvailable then none
  else
    match env.apiKey with
    | none => none
    | some _ =>
      match env.callResult with
      | Except.error _ => none
      | Except.ok content => some (trimChars content)

/-- Global replace of `pat` followed by an optional newline with the empty
string (the regex `pat\n?` with the `g` flag), scanning left to right. -/
def stripPatNl (pat : List Char) : List Char → List Char
  | [] => []
  | c :: rest =>
    if !pat.isEmpty && startsWith pat (c :: rest) then
      let after := (c :: rest).drop pat.length
      let after := if after.head? = some '\n' then after.tail else after
      stripPatNl pat after
    else c :: stripPatNl pat rest
termination_by l => l.length
decreasing_by
  · simp only [List.length_cons, List.length_drop]
    rcases Bool.and_eq_true .. |>.mp (by assumption) with ⟨hne, -⟩
    have hp : 1 ≤ pat.length := by
      cases pat with
      | nil => simp [List.isEmpty] at hne
      | cons a as => simp
    split
    · have := List.length_tail ((c :: rest).drop pat.length)
      simp only [List.length_drop, List.length_cons] at this
      omega
    · simp only [List.length_drop, List.length_cons]
      omega
  · simp

/-- The markdown-fence cleanup applied to AI output:
`.replace(/```typescript\n?/g, '').replace(/```\n?/g, '')`. -/
def cleanCodeBlocks (aiCode : List Char) : List Char :=
  stripPatNl (str "```") (stripPatNl (str "```typescript") aiCode)

/-- The AI prompt built by `generateEntityComponent`. -/
def componentPrompt (entityName description : List Char) : List Char :=
  let entityClass := capitalize entityName
  str "Generate an Angular component for managing \x27" ++ entityName ++
  str "\x27 entities in a " ++ description ++
  str ".\n\nRequirements:\n1. Component class name: " ++ entityClass ++
  str "ListComponent\n2. Use Angular 17+ patterns with standalone: false (module-based)\n3. Include TypeScript interface for " ++
  entityClass ++
  str " with relevant properties based on context\n4. Include CRUD operations: list, create, update, delete\n5. Use reactive forms for create/edit\n6. Include error handling and loading states\n7. Use modern Angular patterns (signals, inject(), etc.)\n8. Include proper typing and documentation\n9. Return ONLY the TypeScript component code, no explanations\n\nGenerate the component.ts file content:"

/-- The fallback template of `generateEntityComponent`. -/
def componentTemplate (entityName : List Char) : List Char :=
  let entityClass := capitalize entityName
  let entityPlural := pluralize entityName
  str "import \x7b Component, OnInit \x7d from \x27@angular/core\x27;\nimport \x7b " ++
  entityClass ++ str "Service \x7d from \x27../../services/" ++ entityName ++
  str ".service\x27;\nimport \x7b " ++ entityClass ++
  str " \x7d from \x27../../../core/interfaces/" ++ entityName ++
  str ".interface\x27;\n\n@Component(\x7b\n  selector: \x27app-" ++ entityName ++
  str "-list\x27,\n  templateUrl: \x27./" ++ entityName ++
  str "-list.component.html\x27,\n  styleUrls: [\x27./" ++ entityName ++
  str "-list.component.scss\x27],\n  standalone: false\n\x7d)\nexport class " ++
  entityClass ++ str "ListComponent implements OnInit \x7b\n  " ++
  entityPlural ++ str ": " ++ entityClass ++
  str "[] = [];\n  loading = false;\n  error: string | null = null;\n\n  constructor(private " ++
  entityName ++ str "Service: " ++ entityClass ++
  str "Service) \x7b\x7d\n\n  ngOnInit(): void \x7b\n    this.load" ++ entityClass ++
  str "s();\n  \x7d\n\n  load" ++ entityClass ++
  str "s(): void \x7b\n    this.loading = true;\n    this." ++ entityName ++
  str "Service.getAll().subscribe(\x7b\n      next: (data) => \x7b\n        this." ++
  entityPlural ++
  str " = data;\n        this.loading = false;\n      \x7d,\n      error: (err) => \x7b\n        this.error = \x27Failed to load " ++
  entityPlural ++
  str "\x27;\n        this.loading = false;\n      \x7d\n    \x7d);\n  \x7d\n\n  delete" ++
  entityClass ++
  str "(id: number): void \x7b\n    if (confirm(\x27Are you sure?\x27)) \x7b\n      this." ++
  entityName ++ str "Service.delete(id).subscribe(\x7b\n        next: () => this.load" ++
  entityClass ++ str "s(),\n        error: (err) => this.error = \x27Failed to delete " ++
  entityName ++ str "\x27\n      \x7d);\n    \x7d\n  \x7d\n\x7d\n"

/-- `generateEntityComponent`: try the AI path when `useAI` is set and the
description is non-empty (truthy); use the template when the AI result is
`null` or empty, otherwise the markdown-cleaned AI code. -/
def generateEntityComponent (env : AIEnv) (entityName description : List Char)
    (useAI : Bool) : List Char :=
  if useAI && !description.isEmpty then
    match generateCodeWithAI env (componentPrompt entityName description) with
    | some aiCode => if aiCode.isEmpty then componentTemplate entityName
                     else cleanCodeBlocks aiCode
    | none => componentTemplate entityName
  else componentTemplate entityName

/-- The AI prompt built by `generateEntityService`. -/
def servicePrompt (entityName description : List Char) : List Char :=
  let entityClass := capitalize entityName
  str "Generate an Angular service for managing \x27" ++ entityName ++
  str "\x27 entities in a " ++ description ++
  str ".\n\nRequirements:\n1. Service class name: " ++ entityClass ++
  str "Service\n2. Use HttpClient for API calls\n3. Include methods: getAll(), getById(id), create(data), update(id, data), delete(id)\n4. Return Observables with proper typing\n5. Include error handling\n6. Use environment.apiUrl for base URL\n7. Include proper TypeScript interfaces\n8. Return ONLY the TypeScript service code, no explanations\n\nGenerate the service.ts file content:"

/-- The fallback template of `generateEntityService`. -/
def serviceTemplate (entityName : List Char) : List Char :=
  let entityClass := capitalize entityName
  let entityPlural := pluralize entityName
  str "import \x7b Injectable \x7d from \x27@angular/core\x27;\nimport \x7b HttpClient \x7d from \x27@angular/common/http\x27;\nimport \x7b Observable \x7d from \x27rxjs\x27;\nimport \x7b environment \x7d from \x27../../../environments/environment\x27;\nimport \x7b " ++
  entityClass ++ str " \x7d from \x27../../core/interfaces/" ++ entityName ++
  str ".interface\x27;\n\n@Injectable(\x7b\n  providedIn: \x27root\x27\n\x7d)\nexport class " ++
  entityClass ++ str "Service \x7b\n  private apiUrl = `$\x7benvironment.apiUrl\x7d/" ++
  entityPlural ++
  str "`;\n\n  constructor(private http: HttpClient) \x7b\x7d\n\n  getAll(): Observable<" ++
  entityClass ++ str "[]> \x7b\n    return this.http.get<" ++ entityClass ++
  str "[]>(this.apiUrl);\n  \x7d\n\n  getById(id: number): Observable<" ++ entityClass ++
  str "> \x7b\n    return this.http.get<" ++ entityClass ++
  str ">(`$\x7bthis.apiUrl\x7d/$\x7bid\x7d`);\n  \x7d\n\n  create(data: Partial<" ++
  entityClass ++ str ">): Observable<" ++ entityClass ++
  str "> \x7b\n    return this.http.post<" ++ entityClass ++
  str ">(this.apiUrl, data);\n  \x7d\n\n  update(id: number, data: Partial<" ++
  entityClass ++ str ">): Observable<" ++ entityClass ++
  str "> \x7b\n    return this.http.put<" ++ entityClass ++
  str ">(`$\x7bthis.apiUrl\x7d/$\x7bid\x7d`, data);\n  \x7d\n\n  delete(id: number): Observable<void> \x7b\n    return this.http.delete<void>(`$\x7bthis.apiUrl\x7d/$\x7bid\x7d`);\n  \x7d\n\x7d\n"

/-- `generateEntityService`: same AI-or-template control flow as the
component generator. -/
def generateEntityService (env : AIEnv) (entityName description : List Char)
    (useAI : Bool) : List Char :=
  if useAI && !description.isEmpty then
    match generateCodeWithAI env (servicePrompt entityName description) with
    | some aiCode => if aiCode.isEmpty then serviceTemplate entityName
                     else cleanCodeBlocks aiCode
    | none => serviceTemplate entityName
  else serviceTemplate entityName

/-- The list-component HTML template written by `generateEntityFeature`. -/
def componentHtml (entityName : List Char) : List Char :=
  let entityClass := capitalize entityName
  let entityPlural := pluralize entityName
  str "<div class=\"" ++ entityName ++ str "-list\">\n  <h2>" ++ entityClass ++
  str " Management</h2>\n  \n  <div *ngIf=\"loading\" class=\"loading\">Loading...</div>\n  <div *ngIf=\"error\" class=\"error\">\x7b\x7b error \x7d\x7d</div>\n  \n  <div class=\"" ++
  entityPlural ++ str "-grid\">\n    <div *ngFor=\"let " ++ entityName ++ str " of " ++
  entityPlural ++ str "\" class=\"" ++ entityName ++ str "-card\">\n      <h3>\x7b\x7b " ++
  entityName ++ str ".name || " ++ entityName ++
  str ".title \x7d\x7d</h3>\n      <button (click)=\"delete" ++ entityClass ++ str "(" ++
  entityName ++ str ".id)\">Delete</button>\n    </div>\n  </div>\n</div>\n"

/-- The list-component SCSS template written by `generateEntityFeature`. -/
def componentScss (entityName : List Char) : List Char :=
  let entityPlural := pluralize entityName
  str "." ++ entityName ++ str "-list \x7b\n  padding: 20px;\n  \n  ." ++ entityPlural ++
  str "-grid \x7b\n    display: grid;\n    grid-template-columns: repeat(auto-fill, minmax(300px, 1fr));\n    gap: 20px;\n    margin-top: 20px;\n  \x7d\n  \n  ." ++
  entityName ++
  str "-card \x7b\n    border: 1px solid #ddd;\n    padding: 15px;\n    border-radius: 8px;\n  \x7d\n\x7d\n"

/-- The per-entity interface file written by `generateEntityFeature`. -/
def interfaceCode (entityName : List Char) : List Char :=
  let entityClass := capitalize entityName
  str "export interface " ++ entityClass ++
  str " \x7b\n  id: number;\n  name: string;\n  createdAt?: Date;\n  updatedAt?: Date;\n\x7d\n"

/-- The per-entity feature module written by `generateEntityFeature`. -/
def moduleCode (entityName : List Char) : List Char :=
  let entityClass := capitalize entityName
  str "import \x7b NgModule \x7d from \x27@angular/core\x27;\nimport \x7b CommonModule \x7d from \x27@angular/common\x27;\nimport \x7b RouterModule, Routes \x7d from \x27@angular/router\x27;\nimport \x7b SharedModule \x7d from \x27../../shared/shared.module\x27;\nimport \x7b " ++
  entityClass ++ str "ListComponent \x7d from \x27./components/" ++ entityName ++
  str "-list.component\x27;\n\nconst routes: Routes = [\n  \x7b path: \x27\x27, component: " ++
  entityClass ++ str "ListComponent \x7d\n];\n\n@NgModule(\x7b\n  declarations: [" ++
  entityClass ++
  str "ListComponent],\n  imports: [\n    CommonModule,\n    SharedModule,\n    RouterModule.forChild(routes)\n  ]\n\x7d)\nexport class " ++
  entityClass ++ str "Module \x7b \x7d\n"

/-- `generateEntityFeature`: the six per-entity files (relative path paired
with content) written for one entity; component and service go through the
AI-or-template path, the other four are plain templates. -/
def generateEntityFeature (env : AIEnv) (entityName description : List Char) :
    List (List Char × List Char) :=
  let entityPlural := pluralize entityName
  let featurePath := str "src/app/features/" ++ entityPlural
  [ (featurePath ++ str "/components/" ++ entityName ++ str "-list.component.ts",
     generateEntityComponent env entityName description true),
    (featurePath ++ str "/components/" ++ entityName ++ str "-list.component.html",
     componentHtml entityName),
    (featurePath ++ str "/components/" ++ entityName ++ str "-list.component.scss",
     componentScss entityName),
    (featurePath ++ str "/services/" ++ entityName ++ str ".service.ts",
     generateEntityService env entityName description true),
    (str "src/app/core/interfaces/" ++ entityName ++ str ".interface.ts",
     interfaceCode entityName),
    (featurePath ++ str "/" ++ entityName ++ str ".module.ts",
     moduleCode entityName) ]

/-- A run with no Generative Assist at all: the OpenAI library import failed,
so every AI call degrades to the template immediately. -/
def noAIEnv : AIEnv := ⟨false, none, Except.error []⟩

/-- Any of the three failure conditions of `generateCodeWithAI`: library
unavailable, no API key configured, or the service call threw. -/
def aiUnavailable (env : AIEnv) : Prop :=
  env.openaiAvailable = false ∨ env.apiKey = none ∨ ∃ e, env.callResult = Except.error e

/-- The generator's project configuration after `generateAngularProject` has
populated `entities` from the description. -/
structure ProjectConfig extends IssueConfig where
  entities : List (List Char)

/-- The `config.entities = extractEntitiesFromDescription(config.description || '')`
step of `generateAngularProject`. -/
def withEntities (c : IssueConfig) : ProjectConfig :=
  { toIssueConfig := c
    entities := extractEntitiesFromDescription
      (match c.description with | some d => d | none => []) }

/-- JS `Array.prototype.join` with a separator. -/
def joinSep (sep : List Char) : List (List Char) → List Char
  | [] => []
  | [x] => x
  | x :: xs => x ++ sep ++ joinSep sep xs

/-- POSIX `path.basename`: the final path segment. -/
def basename (p : List Char) : List Char := (p.reverse.takeWhile (· ≠ '/')).reverse

/-- Find the index of the last space (JS `lastIndexOf(' ')`, with the absent
case collapsing to 0 as `substring(0, -1)` does). -/
def lastSpaceIdx (l : List Char) : Nat :=
  match l.reverse.findIdx? (· = ' ') with
  | some j => l.length - 1 - j
  | none => 0

/-- `getDescriptionSummary`: the first sentence if short enough, otherwise the
description itself if short enough, otherwise a word-aligned truncation with
an ellipsis. -/
def getDescriptionSummary (description : List Char) (maxLength : Nat) : List Char :=
  if description.isEmpty then []
  else
    let firstSentence := description.takeWhile (· ≠ '.')
    if firstSentence.length ≤ maxLength then firstSentence ++ ['.']
    else if description.length ≤ maxLength then description
    else
      let truncated := description.take maxLength
      truncated.take (lastSpaceIdx truncated) ++ str "..."

/-- The constant `appModuleTs` written by `createAppModule`. -/
def appModuleTs : List Char :=
  str "import \x7b NgModule, CUSTOM_ELEMENTS_SCHEMA \x7d from \x27@angular/core\x27;\nimport \x7b BrowserModule \x7d from \x27@angular/platform-browser\x27;\nimport \x7b BrowserAnimationsModule \x7d from \x27@angular/platform-browser/animations\x27;\nimport \x7b provideHttpClient, withInterceptorsFromDi \x7d from \x27@angular/common/http\x27;\n\nimport \x7b AppRoutingModule \x7d from \x27./app-routing.module\x27;\nimport \x7b AppComponent \x7d from \x27./app.component\x27;\nimport \x7b CoreModule \x7d from \x27./core/core.module\x27;\nimport \x7b SharedModule \x7d from \x27./shared/shared.module\x27;\nimport \x7b LayoutModule \x7d from \x27./layout/layout.module\x27;\n\n@NgModule(\x7b\n  declarations: [AppComponent],\n  imports: [\n    BrowserModule,\n    BrowserAnimationsModule,\n    AppRoutingModule,\n    CoreModule,\n    SharedModule,\n    LayoutModule\n  ],\n  providers: [provideHttpClient(withInterceptorsFromDi())],\n  bootstrap: [AppComponent],\n  schemas: [CUSTOM_ELEMENTS_SCHEMA]\n\x7d)\nexport class AppModule \x7b \x7d\n"

/-- The `appComponentTs` written by `createAppModule` (interpolates the
project name into the `title` field). -/
def appComponentTs (projectName : List Char) : List Char :=
  str "import \x7b Component \x7d from \x27@angular/core\x27;\n\n@Component(\x7b\n  selector: \x27app-root\x27,\n  templateUrl: \x27./app.component.html\x27,\n  styleUrls: [\x27./app.component.scss\x27],\n  standalone: false\n\x7d)\nexport class AppComponent \x7b\n  title = \x27" ++
  projectName ++ str "\x27;\n\x7d\n"

/-- The constant `appComponentHtml` written by `createAppModule`. -/
def appComponentHtml : List Char :=
  str "<app-layout>\n  <router-outlet></router-outlet>\n</app-layout>\n"

/-- The constant `appComponentScss` written by `createAppModule`. -/
def appComponentScss : List Char := str "// App component styles\n"

/-- The constant `appRoutingModule` written by `createAppModule`: the
application's entry-point route registrations. It registers only the default
redirect and the lazily loaded home feature. -/
def appRoutingModule : List Char :=
  str "import \x7b NgModule \x7d from \x27@angular/core\x27;\nimport \x7b RouterModule, Routes \x7d from \x27@angular/router\x27;\n\nconst routes: Routes = [\n  \x7b\n    path: \x27\x27,\n    redirectTo: \x27/home\x27,\n    pathMatch: \x27full\x27\n  \x7d,\n  \x7b\n    path: \x27home\x27,\n    loadChildren: () => import(\x27./features/home/home.module\x27).then(m => m.HomeModule)\n  \x7d\n];\n\n@NgModule(\x7b\n  imports: [RouterModule.forRoot(routes)],\n  exports: [RouterModule]\n\x7d)\nexport class AppRoutingModule \x7b \x7d\n"

/-- `createAppModule`: the five files it writes, as relative path paired with
content. It receives no configuration and no entity list. -/
def createAppModuleFiles (projectName : List Char) : List (List Char × List Char) :=
  [ (str "src/app/app.module.ts", appModuleTs),
    (str "src/app/app.component.ts", appComponentTs projectName),
    (str "src/app/app.component.html", appComponentHtml),
    (str "src/app/app.component.scss", appComponentScss),
    (str "src/app/app-routing.module.ts", appRoutingModule) ]

/-- Look a generated file up by its relative path. -/
def lookupFile (p : List Char) (files : List (List Char × List Char)) :
    Option (List Char) :=
  (files.find? (fun f => f.1 == p)).map Prod.snd

/-- The README bullet for one detected entity. -/
def entityBullet (entity : List Char) : List Char :=
  str "- **" ++ capitalize entity ++ str "** - Feature module at `src/app/features/" ++
  pluralize entity ++ str "/`"

/-- The `## Detected Entities` section of the README (empty when the entity
list is empty). -/
def entitiesSection (entities : List (List Char)) : List Char :=
  if !entities.isEmpty then
    str "\n## Detected Entities\n\n" ++ joinSep (str "\n") (entities.map entityBullet) ++
    str "\n"
  else []

/-- The `## Reference Images` section of the README. -/
def refSection (referenceImages : List (List Char)) : List Char :=
  if !referenceImages.isEmpty then
    str "\n\n## Reference Images\n\nThis project includes UI reference images that guided the design:\n" ++
    joinSep (str "\n") (referenceImages.map (fun img =>
      str "- `" ++ basename img ++ str "` (copied to src/assets/images/)")) ++
    str "\n\nThe UI components were generated using **Komodo Components** to match these reference designs.\n"
  else []

/-- `createReadme`: the full README.md content. -/
def createReadme (projectName : List Char) (config : ProjectConfig)
    (referenceImages : List (List Char)) : List Char :=
  let summary := getDescriptionSummary
    (match config.description with | some d => d | none => []) 100
  str "# " ++ projectName ++ str "\n\n" ++
  (if summary.isEmpty then str "Angular application with Komodo UI components"
   else summary) ++
  str "\n" ++ refSection referenceImages ++ entitiesSection config.entities ++
  str "\n## Komodo Components\n\nThis project uses **@business-app-systems/komodo-ui** components.\n\n**Komodo Component Library**: https://main--6871820252f4f69a29390192.chromatic.com/\n\nAvailable components include:\n- Accordion\n- Button\n- Card\n- Dialog\n- Form Controls\n- Navigation\n- Table\n- And many more...\n\n## Features\n\n" ++
  (if !config.features.isEmpty then
    joinSep (str "\n") (config.features.map (fun f => str "- " ++ f))
   else str "- Module-based architecture\n- Komodo UI components\n- SCSS styling\n- Routing") ++
  str "\n\n## Prerequisites\n\n- Node.js 18+\n- npm 9+\n- Angular CLI 18+\n\n## Installation\n\n```bash\nnpm install\n```\n\n## Development\n\n```bash\nnpm start\n```\n\nNavigate to `http://localhost:4200/`\n\n## Build\n\n```bash\n# Production build\nnpm run build:prod\n\n# Development build\nnpm run build\n```\n\n## Project Structure\n\n- `src/app/core/` - Singleton services and core functionality\n- `src/app/shared/` - Reusable components, directives, pipes\n- `src/app/layout/` - Layout components (header, footer)\n- `src/app/features/` - Feature modules (lazy-loaded)\n- `src/assets/` - Static assets including reference images\n\n## Komodo Components Usage\n\nImport Komodo modules in your feature modules:\n\n```typescript\nimport \x7b KomodoButtonModule, KomodoCardModule \x7d from \x27@business-app-systems/komodo-ui\x27;\n\n@NgModule(\x7b\n  imports: [\n    KomodoButtonModule,\n    KomodoCardModule\n  ]\n\x7d)\n```\n\nUse in templates:\n\n```html\n<komodo-button>Click Me</komodo-button>\n<komodo-card>\n  <komodo-card-header>Title</komodo-card-header>\n  <komodo-card-content>Content here</komodo-card-content>\n</komodo-card>\n```\n\n## Generated by CodeGen Automator\n\nThis project was automatically generated with:\n- Module-based architecture (NOT standalone)\n- Komodo UI component library\n- SCSS styling" ++
  (if !referenceImages.isEmpty then str "\n- UI matching reference images" else []) ++
  str "\n"

lemma entityStep_append (d : List Char) (acc : List (List Char))
    (entry : List Char × List (List Char)) :
    ∃ t, entityStep d acc entry = acc ++ t := by
  unfold entityStep
  split
  · split
    · exact ⟨[], by simp⟩
    · exact ⟨[entry.1], rfl⟩
  · exact ⟨[], by simp⟩

lemma foldl_entityStep_append (d : List Char)
    (lex : List (List Char × List (List Char))) (acc : List (List Char)) :
    ∃ t, lex.foldl (entityStep d) acc = acc ++ t := by
  induction lex generalizing acc with
  | nil => exact ⟨[], by simp⟩
  | cons e es ih =>
    obtain ⟨t1, h1⟩ := entityStep_append d acc e
    obtain ⟨t2, h2⟩ := ih (entityStep d acc e)
    exact ⟨t1 ++ t2, by rw [List.foldl_cons, h2, h1, List.append_assoc]⟩

lemma mem_foldl_entityStep_of_mem (d : List Char)
    (lex : List (List Char × List (List Char))) (acc : List (List Char))
    (x : List Char) (h : x ∈ acc) : x ∈ lex.foldl (entityStep d) acc := by
  obtain ⟨t, ht⟩ := foldl_entityStep_append d lex acc
  rw [ht]
  exact List.mem_append_left _ h

lemma mem_foldl_entityStep_of_match (d : List Char)
    {lex : List (List Char × List (List Char))}
    {entry : List Char × List (List Char)} (hmem : entry ∈ lex)
    (hmatch : entry.2.any (fun keyword => keywordTest keyword d) = true)
    (acc : List (List Char)) :
    entry.1 ∈ lex.foldl (entityStep d) acc := by
  induction hmem generalizing acc with
  | head es =>
    simp only [List.foldl_cons]
    apply mem_foldl_entityStep_of_mem
    simp only [entityStep, hmatch, if_true]
    split
    · next hc => exact List.mem_of_elem_eq_true hc
    · exact List.mem_append_right _ (List.mem_singleton.mpr rfl)
  | tail b _ ih =>
    simp only [List.foldl_cons]
    exact ih _

lemma foldl_entityStep_id (d : List Char)
    (lex : List (List Char × List (List Char))) (acc : List (List Char))
    (h : ∀ entry ∈ lex, entry.2.any (fun keyword => keywordTest keyword d) = false) :
    lex.foldl (entityStep d) acc = acc := by
  induction lex generalizing acc with
  | nil => rfl
  | cons e es ih =>
    have he := h e (List.mem_cons_self e es)
    simp only [List.foldl_cons]
    rw [show entityStep d acc e = acc by simp [entityStep, he]]
    exact ih _ (fun x hx => h x (List.mem_cons_of_mem _ hx))

lemma mem_foldl_entityStep_source (d : List Char)
    (lex : List (List Char × List (List Char))) (acc : List (List Char))
    (x : List Char) (h : x ∈ lex.foldl (entityStep d) acc) :
    x ∈ acc ∨ x ∈ lex.map Prod.fst := by
  induction lex generalizing acc with
  | nil => exact Or.inl h
  | cons e es ih =>
    simp only [List.foldl_cons] at h
    rcases ih _ h with hacc | hmap
    · unfold entityStep at hacc
      split at hacc
      · split at hacc
        · exact Or.inl hacc
        · rcases List.mem_append.mp hacc with h1 | h2
          · exact Or.inl h1
          · exact Or.inr (by simp [List.mem_singleton.mp h2])
      · exact Or.inl hacc
    · exact Or.inr (List.mem_cons_of_mem _ hmap)

/-- C1: if no lexicon keyword matches the lowercased description (under the
word-boundary matching with the optional `s` / `y`-to-`ies` variants), the
extractor returns exactly `["item"]`; being a total function of the
description, it raises on no input. -/
theorem extractEntities_no_match_default (description : List Char)
    (h : ∀ entry ∈ entityKeywords, ∀ k ∈ entry.2,
         keywordTest k (description.map Char.toLower) = false) :
    extractEntitiesFromDescription description = [str "item"] := by
  have hraw : rawEntities (description.map Char.toLower) = [] := by
    apply foldl_entityStep_id
    intro entry hentry
    rw [List.any_eq_false]
    intro k hk
    simp [h entry hentry k hk]
  simp [extractEntitiesFromDescription, rawEntities] at hraw ⊢
  simp [hraw]

/-- Witness for C1 at the concrete keyword-free description `"hello world"`. -/
theorem extractEntities_no_match_default_witness :
    extractEntitiesFromDescription (str "hello world") = [str "item"] :=
  extractEntities_no_match_default (str "hello world") (by decide)

/-- C2: the extractor always returns between 1 and 3 entities. -/
theorem extractEntities_length_bounds (description : List Char) :
    1 ≤ (extractEntitiesFromDescription description).length ∧
    (extractEntitiesFromDescription description).length ≤ 3 := by
  unfold extractEntitiesFromDescription
  cases h : rawEntities (description.map Char.toLower) with
  | nil => simp [h]
  | cons a l =>
    simp only [h]
    simp [List.length_take]

/-- C5: the three pluralization rules in priority order, and the four
documented examples. -/
theorem pluralize_rules :
    (∀ e : List Char, e.getLast? = some 'y' → pluralize e = e.dropLast ++ str "ies") ∧
    (∀ e : List Char, e.getLast? ≠ some 'y' → e.getLast? = some 's' → pluralize e = e) ∧
    (∀ e : List Char, e.getLast? ≠ some 'y' → e.getLast? ≠ some 's' →
      pluralize e = e ++ str "s") ∧
    pluralize (str "category") = str "categories" ∧
    pluralize (str "inventory") = str "inventories" ∧
    pluralize (str "business") = str "business" ∧
    pluralize (str "user") = str "users" := by
  refine ⟨?_, ?_, ?_, by decide, by decide, by decide, by decide⟩
  · intro e h
    simp [pluralize, h]
  · intro e h1 h2
    simp [pluralize, h1, h2]
  · intro e h1 h2
    simp [pluralize, h1, h2]

/-- Witness for C5, discharging each rule's hypothesis at a concrete word. -/
theorem pluralize_rules_witness :
    pluralize (str "category") = (str "category").dropLast ++ str "ies" ∧
    pluralize (str "business") = str "business" ∧
    pluralize (str "user") = str "user" ++ str "s" :=
  ⟨pluralize_rules.1 (str "category") (by decide),
   pluralize_rules.2.1 (str "business") (by decide) (by decide),
   pluralize_rules.2.2.1 (str "user") (by decide) (by decide)⟩

/-- C6: `pluralize` is idempotent on every string (the three ending classes
`y` / `s` / other are exhaustive). -/
theorem pluralize_idempotent (e : List Char) :
    pluralize (pluralize e) = pluralize e := by
  by_cases hy : e.getLast? = some 'y'
  · have h1 : pluralize e = e.dropLast ++ str "ies" := by simp [pluralize, hy]
    have h2 : (e.dropLast ++ str "ies").getLast? = some 's' := by
      rw [show str "ies" = ['i', 'e'] ++ ['s'] from rfl, ← List.append_assoc]
      exact List.getLast?_concat _
    have hne : (e.dropLast ++ str "ies").getLast? ≠ some 'y' := by
      rw [h2]; decide
    rw [h1]
    simp only [pluralize]
    rw [if_neg hne, if_pos h2]
  · by_cases hs : e.getLast? = some 's'
    · have h1 : pluralize e = e := by simp [pluralize, hy, hs]
      rw [h1, h1]
    · have h1 : pluralize e = e ++ str "s" := by simp [pluralize, hy, hs]
      have h2 : (e ++ str "s").getLast? = some 's' := List.getLast?_concat _
      have hne : (e ++ str "s").getLast? ≠ some 'y' := by
        rw [h2]; decide
      rw [h1]
      simp only [pluralize]
      rw [if_neg hne, if_pos h2]

/-- C8: extraction on the blog-platform example returns exactly
`user`, `post`, `comment`, in lexicon iteration order (not input order:
`posts` appears before `user` in the text). -/
theorem extract_blog_example :
    extractEntitiesFromDescription
      (str "A blog platform with posts, comments, and user profiles") =
      [str "user", str "post", str "comment"] := by decide

lemma entityStep_length_le (d : List Char) (acc : List (List Char))
    (entry : List Char × List (List Char)) :
    (entityStep d acc entry).length ≤ acc.length + 1 := by
  unfold entityStep
  split
  · split <;> simp
  · simp

/-- C3 counterexample: on a description matching the shared keyword
`transaction`, the extractor records BOTH `order` and `payment`, not only the
lexicon-first entity: the `break` only stops scanning one entity's remaining
keywords, it does not suppress later entities. -/
theorem extractEntities_overlap_counterexample :
    extractEntitiesFromDescription (str "A transaction system") =
      [str "order", str "payment"] ∧
    str "payment" ∈ extractEntitiesFromDescription (str "A transaction system") := by
  decide

/-- C3 (amended): whenever the keyword `transaction` (listed under both
`order` and `payment`) matches, both canonical entities are recorded in the
accumulated entity list, and `order` — the one iterated first — always
survives the length-3 cap into the returned list. -/
theorem extractEntities_overlap_records_both (description : List Char)
    (h : keywordTest (str "transaction") (description.map Char.toLower) = true) :
    str "order" ∈ rawEntities (description.map Char.toLower) ∧
    str "payment" ∈ rawEntities (description.map Char.toLower) ∧
    str "order" ∈ extractEntitiesFromDescription description := by
  set d := description.map Char.toLower with hd
  have horderK : (str "order", [str "order", str "purchase", str "transaction"]) ∈
      entityKeywords := by decide
  have hanyOrder : [str "order", str "purchase", str "transaction"].any
      (fun keyword => keywordTest keyword d) = true := by
    rw [List.any_eq_true]
    exact ⟨str "transaction", by decide, h⟩
  have hpayK : (str "payment", [str "payment", str "transaction"]) ∈ entityKeywords := by
    decide
  have hanyPay : [str "payment", str "transaction"].any
      (fun keyword => keywordTest keyword d) = true := by
    rw [List.any_eq_true]
    exact ⟨str "transaction", by decide, h⟩
  refine ⟨mem_foldl_entityStep_of_match d horderK hanyOrder [],
          mem_foldl_entityStep_of_match d hpayK hanyPay [], ?_⟩
  -- `order` is the third lexicon entry, so it is recorded at index ≤ 2 and
  -- survives `take 3`.
  have hsplit : rawEntities d =
      List.foldl (entityStep d)
        (entityStep d (List.foldl (entityStep d) []
          [entityKeywords[0], entityKeywords[1]]) entityKeywords[2])
        (entityKeywords.drop 3) := by
    simp only [rawEntities]
    rfl
  set acc2 := List.foldl (entityStep d) [] [entityKeywords[0], entityKeywords[1]] with hacc2
  have hlen2 : acc2.length ≤ 2 := by
    have h1 := entityStep_length_le d [] entityKeywords[0]
    have h2 := entityStep_length_le d (entityStep d [] entityKeywords[0]) entityKeywords[1]
    simp only [hacc2, List.foldl_cons, List.foldl_nil]
    simp at h1
    omega
  have hnotin : str "order" ∉ acc2 := by
    intro hin
    rcases mem_foldl_entityStep_source d _ _ _ hin with h0 | hmap
    · cases h0
    · revert hmap
      decide
  have hstep3 : entityStep d acc2 entityKeywords[2] = acc2 ++ [str "order"] := by
    show entityStep d acc2 (str "order", [str "order", str "purchase", str "transaction"]) =
      acc2 ++ [str "order"]
    unfold entityStep
    rw [if_pos hanyOrder]
    have hc : acc2.contains (str "order") = false := by
      rcases hb : acc2.contains (str "order") with - | -
      · rfl
      · exact absurd (List.elem_iff.mp hb) hnotin
    rw [hc]
    simp
  obtain ⟨t, ht⟩ := foldl_entityStep_append d (entityKeywords.drop 3)
    (entityStep d acc2 entityKeywords[2])
  have hraw : rawEntities d = (acc2 ++ [str "order"]) ++ t := by
    rw [hsplit, ht, hstep3]
  have hne : rawEntities d ≠ [] := by
    rw [hraw]
    simp
  have hext : extractEntitiesFromDescription description = (rawEntities d).take 3 := by
    simp only [extractEntitiesFromDescription, ← hd]
    rw [if_neg hne]
  rw [hext, hraw, List.take_append_eq_append_take,
    List.take_of_length_le (by simp; omega)]
  exact List.mem_append_left _ (List.mem_append_right _ (List.mem_singleton.mpr rfl))

/-- Witness for C3's amended theorem at a concrete transaction description. -/
theorem extractEntities_overlap_records_both_witness :
    str "order" ∈ rawEntities ((str "A transaction system").map Char.toLower) ∧
    str "payment" ∈ rawEntities ((str "A transaction system").map Char.toLower) ∧
    str "order" ∈ extractEntitiesFromDescription (str "A transaction system") :=
  extractEntities_overlap_records_both (str "A transaction system") (by decide)

/-- C10: `"item"` is a synonym keyword of the canonical entity `product`;
a description whose only early-lexicon match is the standalone word
`item`/`items` yields `product` as the first extracted entity; and the
literal `"item"` can appear in the output only as the zero-match default. -/
theorem item_keyword_maps_to_product :
    ((str "product", [str "product", str "item", str "goods", str "merchandise"]) ∈
      entityKeywords ∧
     str "item" ∈ [str "product", str "item", str "goods", str "merchandise"]) ∧
    (∀ description : List Char,
      keywordTest (str "item") (description.map Char.toLower) = true →
      (∀ k ∈ [str "user", str "account", str "profile", str "member"],
        keywordTest k (description.map Char.toLower) = false) →
      (extractEntitiesFromDescription description).head? = some (str "product")) ∧
    (∀ description : List Char,
      str "item" ∈ extractEntitiesFromDescription description →
      extractEntitiesFromDescription description = [str "item"]) := by
  refine ⟨by decide, ?_, ?_⟩
  · intro description hitem huser
    set d := description.map Char.toLower with hd
    have hanyUser : [str "user", str "account", str "profile", str "member"].any
        (fun keyword => keywordTest keyword d) = false := by
      rw [List.any_eq_false]
      intro k hk
      simp [huser k hk]
    have hanyProd : [str "product", str "item", str "goods", str "merchandise"].any
        (fun keyword => keywordTest keyword d) = true := by
      rw [List.any_eq_true]
      exact ⟨str "item", by decide, hitem⟩
    have hstep1 : entityStep d []
        (str "user", [str "user", str "account", str "profile", str "member"]) = [] := by
      simp [entityStep, hanyUser]
    have hstep2 : entityStep d []
        (str "product", [str "product", str "item", str "goods", str "merchandise"]) =
        [str "product"] := by
      simp [entityStep, hanyProd]
    have hsplit : rawEntities d =
        List.foldl (entityStep d)
          (entityStep d (entityStep d [] entityKeywords[0]) entityKeywords[1])
          (entityKeywords.drop 2) := by
      simp only [rawEntities]
      rfl
    obtain ⟨t, ht⟩ := foldl_entityStep_append d (entityKeywords.drop 2)
      (entityStep d (entityStep d [] entityKeywords[0]) entityKeywords[1])
    have hraw : rawEntities d = str "product" :: t := by
      rw [hsplit, ht]
      show entityStep d (entityStep d []
        (str "user", [str "user", str "account", str "profile", str "member"]))
        (str "product", [str "product", str "item", str "goods", str "merchandise"]) ++ t =
        str "product" :: t
      rw [hstep1, hstep2]
      rfl
    have hne : rawEntities d ≠ [] := by
      rw [hraw]
      simp
    have hext : extractEntitiesFromDescription description = (rawEntities d).take 3 := by
      simp only [extractEntitiesFromDescription, ← hd]
      rw [if_neg hne]
    rw [hext, hraw, List.take_succ_cons]
    rfl
  · intro description hmem
    rcases hraw : rawEntities (description.map Char.toLower) with - | ⟨a, l⟩
    · simp [extractEntitiesFromDescription, hraw]
    · have hext : extractEntitiesFromDescription description = (a :: l).take 3 := by
        simp only [extractEntitiesFromDescription]
        rw [hraw, if_neg (by simp)]
      rw [hext] at hmem
      have hmem2 : str "item" ∈ a :: l := List.take_subset 3 (a :: l) hmem
      rw [← hraw] at hmem2
      rcases mem_foldl_entityStep_source _ _ _ _ hmem2 with h0 | hmap
      · cases h0
      · exact absurd hmap (by decide)

/-- Witness for C10 at the concrete descriptions `"an item shop"` (keyword
path) and `"zzz"` (default path). -/
theorem item_keyword_maps_to_product_witness :
    (extractEntitiesFromDescription (str "an item shop")).head? = some (str "product") ∧
    extractEntitiesFromDescription (str "zzz") = [str "item"] :=
  ⟨item_keyword_maps_to_product.2.1 (str "an item shop") (by decide) (by decide),
   item_keyword_maps_to_product.2.2 (str "zzz") (by decide)⟩

/-- C7: under any of the failure conditions (library unavailable, key unset,
service call throws), `generateCodeWithAI` returns `null` — it is a total
function, so nothing propagates — and every per-entity generated file is
byte-identical to the one produced by a run with no Generative Assist at
all. -/
theorem ai_fallback_equivalence (env : AIEnv) (h : aiUnavailable env) :
    (∀ prompt, generateCodeWithAI env prompt = none) ∧
    (∀ entityName description : List Char,
      generateEntityFeature env entityName description =
        generateEntityFeature noAIEnv entityName description) := by
  have hnone : ∀ prompt, generateCodeWithAI env prompt = none := by
    intro prompt
    unfold generateCodeWithAI
    rcases h with h1 | h2 | ⟨e, h3⟩
    · simp [h1]
    · cases henv : env.openaiAvailable <;> simp [h2]
    · cases henv : env.openaiAvailable <;> cases hkey : env.apiKey <;> simp [h3]
  have hcomp : ∀ n d : List Char,
      generateEntityComponent env n d true = generateEntityComponent noAIEnv n d true := by
    intro n d
    unfold generateEntityComponent
    rw [hnone (componentPrompt n d),
      show generateCodeWithAI noAIEnv (componentPrompt n d) = none from rfl]
  have hserv : ∀ n d : List Char,
      generateEntityService env n d true = generateEntityService noAIEnv n d true := by
    intro n d
    unfold generateEntityService
    rw [hnone (servicePrompt n d),
      show generateCodeWithAI noAIEnv (servicePrompt n d) = none from rfl]
  exact ⟨hnone, fun entityName description => by
    simp only [generateEntityFeature, hcomp, hserv]⟩

/-- Witness for C7: a concrete environment with the library present but no
API key configured behaves exactly like the no-Generative-Assist run. -/
theorem ai_fallback_equivalence_witness :
    generateCodeWithAI ⟨true, none, Except.ok (str "code")⟩ (str "p") = none ∧
    generateEntityFeature ⟨true, none, Except.ok (str "code")⟩ (str "user") (str "a blog") =
      generateEntityFeature noAIEnv (str "user") (str "a blog") :=
  ⟨(ai_fallback_equivalence ⟨true, none, Except.ok (str "code")⟩
      (Or.inr (Or.inl rfl))).1 (str "p"),
   (ai_fallback_equivalence ⟨true, none, Except.ok (str "code")⟩
      (Or.inr (Or.inl rfl))).2 (str "user") (str "a blog")⟩

lemma startsWith_append_self (w r : List Char) : startsWith w (w ++ r) = true := by
  induction w with
  | nil => rfl
  | cons a as ih => simp [startsWith, ih]

lemma startsWith_append_extend (w t b : List Char) (h : startsWith w t = true) :
    startsWith w (t ++ b) = true := by
  induction w generalizing t with
  | nil => rfl
  | cons a as ih =>
    cases t with
    | nil => cases h
    | cons c cs =>
      simp only [startsWith, Bool.and_eq_true, decide_eq_true_eq] at h ⊢
      exact ⟨h.1, ih cs h.2⟩

lemma containsSub_nil_needle (t : List Char) : containsSub [] t = true := by
  cases t <;> simp [containsSub, startsWith]

lemma containsSub_of_startsWith (w t : List Char) (h : startsWith w t = true) :
    containsSub w t = true := by
  cases t with
  | nil => simpa [containsSub] using h
  | cons c cs => simp [containsSub, h]

lemma containsSub_cons (w t : List Char) (c : Char) (h : containsSub w t = true) :
    containsSub w (c :: t) = true := by
  simp [containsSub, h]

lemma containsSub_append_left (w a t : List Char) (h : containsSub w t = true) :
    containsSub w (a ++ t) = true := by
  induction a with
  | nil => exact h
  | cons c cs ih => exact containsSub_cons _ _ _ ih

lemma containsSub_append_right (w t b : List Char) (h : containsSub w t = true) :
    containsSub w (t ++ b) = true := by
  induction t with
  | nil =>
    cases w with
    | nil => simpa using containsSub_nil_needle b
    | cons x xs => simp [containsSub, startsWith] at h
  | cons c cs ih =>
    simp only [containsSub, Bool.or_eq_true] at h
    rcases h with h1 | h2
    · exact containsSub_of_startsWith _ _ (startsWith_append_extend _ _ b h1)
    · exact containsSub_cons _ _ _ (ih h2)

lemma containsSub_self (w : List Char) : containsSub w w = true := by
  have := containsSub_of_startsWith w (w ++ []) (startsWith_append_self w [])
  simpa using this

lemma mem_joinSep (sep : List Char) (l : List (List Char)) (x : List Char)
    (h : x ∈ l) : containsSub x (joinSep sep l) = true := by
  induction l with
  | nil => cases h
  | cons y ys ih =>
    cases ys with
    | nil =>
      rw [List.mem_singleton.mp h]
      exact containsSub_self y
    | cons z zs =>
      have hj : joinSep sep (y :: z :: zs) = (y ++ sep) ++ joinSep sep (z :: zs) := by
        simp [joinSep]
      rw [hj]
      rcases List.mem_cons.mp h with heq | hmem
      · subst heq
        rw [List.append_assoc]
        exact containsSub_of_startsWith _ _ (startsWith_append_self x _)
      · exact containsSub_append_left _ (y ++ sep) _ (ih hmem)

/-- C4 counterexample: for the concrete configuration whose description is
`"a user system"` (entities `["user"]`), the entry-point routing file the SPA
generator emits is the fixed `appRoutingModule`, and that content contains no
occurrence of `user` (in particular none of `features/users`): the per-entity
feature module is not wired into the application's routing. -/
theorem appRouting_no_entity_wiring_counterexample :
    extractEntitiesFromDescription (str "a user system") = [str "user"] ∧
    lookupFile (str "src/app/app-routing.module.ts")
      (createAppModuleFiles (str "shop")) = some appRoutingModule ∧
    containsSub (str "user") appRoutingModule = false ∧
    containsSub (str "features/users") appRoutingModule = false := by
  decide

/-- C4 (amended): the SPA profile's top-level registration is fixed —
`createAppModule` takes no configuration, and the routing file it emits
registers only the default redirect and the home feature module, never the
per-entity feature modules (each of which carries its own child routes) —
while the README does enumerate every detected entity with its
feature-module path. -/
theorem appModule_readme_amended :
    (∀ projectName : List Char,
      lookupFile (str "src/app/app-routing.module.ts")
        (createAppModuleFiles projectName) = some appRoutingModule) ∧
    containsSub (str "path: \x27home\x27") appRoutingModule = true ∧
    containsSub (str "./features/home/home.module") appRoutingModule = true ∧
    (∀ entityName : List Char,
      containsSub (str "RouterModule.forChild(routes)") (moduleCode entityName) = true) ∧
    (∀ (projectName : List Char) (config : ProjectConfig)
       (referenceImages : List (List Char)), ∀ e ∈ config.entities,
      containsSub (entityBullet e)
        (createReadme projectName config referenceImages) = true) := by
  refine ⟨fun projectName => rfl, by decide, by decide, ?_, ?_⟩
  · intro entityName
    unfold moduleCode
    apply containsSub_append_right
    apply containsSub_append_right
    apply containsSub_append_left
    decide
  · intro projectName config referenceImages e he
    unfold createReadme
    apply containsSub_append_right
    apply containsSub_append_right
    apply containsSub_append_right
    apply containsSub_append_right
    apply containsSub_append_right
    apply containsSub_append_left
    unfold entitiesSection
    rw [if_pos (by simp [List.isEmpty_iff]; exact List.ne_nil_of_mem he)]
    apply containsSub_append_right
    apply containsSub_append_left
    exact mem_joinSep _ _ _ (List.mem_map_of_mem entityBullet he)

/-- Witness for C4's amended theorem at a concrete project. -/
theorem appModule_readme_amended_witness :
    lookupFile (str "src/app/app-routing.module.ts")
      (createAppModuleFiles (str "blog")) = some appRoutingModule ∧
    containsSub (str "RouterModule.forChild(routes)") (moduleCode (str "user")) = true ∧
    containsSub (entityBullet (str "user"))
      (createReadme (str "blog")
        (withEntities (parseIssueBody (str "### Project Description\n\na user system\n")))
        []) = true := by
  refine ⟨appModule_readme_amended.1 (str "blog"),
          appModule_readme_amended.2.2.2.1 (str "user"),
          appModule_readme_amended.2.2.2.2 (str "blog")
            (withEntities (parseIssueBody (str "### Project Description\n\na user system\n")))
            [] (str "user") ?_⟩
  decide

lemma matchSection_none (heading body : List Char)
    (h : containsSub heading body = false) : matchSection heading body = none := by
  induction body with
  | nil => rfl
  | cons c rest ih =>
    simp only [containsSub, Bool.or_eq_false_iff] at h
    obtain ⟨h1, h2⟩ := h
    simp [matchSection, h1, ih h2]

lemma mem_featureFlag (cond : Bool) (name x : List Char)
    (h : x ∈ featureFlag cond name) : x = name := by
  unfold featureFlag at h
  split at h
  · exact List.mem_singleton.mp h
  · cases h

/-- C9: each field of `parseIssueBody` comes from an independent search of the
whole body — when a heading is absent the documented default is returned
(version `Angular 17 (Latest)`, styling `CSS`, architecture
`Standalone Components`, and an empty feature list when no checkbox marker
occurs); emitted features always lie in the fixed vocabulary (unrecognized
toggle text is ignored, never an error); and the parse result depends only on
the outcomes of the per-field searches, not on section order. -/
theorem parseIssueBody_fields :
    (∀ body : List Char, containsSub (str "### Angular Version") body = false →
      (parseIssueBody body).version = str "Angular 17 (Latest)") ∧
    (∀ body : List Char, containsSub (str "### Styling Framework") body = false →
      (parseIssueBody body).styling = str "CSS") ∧
    (∀ body : List Char, containsSub (str "### Project Structure") body = false →
      (parseIssueBody body).architecture = str "Standalone Components") ∧
    (∀ body : List Char, (∀ m ∈ featureMarkers, containsSub m body = false) →
      (parseIssueBody body).features = []) ∧
    (∀ body f, f ∈ (parseIssueBody body).features → f ∈ featureNames) ∧
    (∀ b1 b2 : List Char,
      matchSection (str "### Angular Version") b1 =
        matchSection (str "### Angular Version") b2 →
      matchSection (str "### Styling Framework") b1 =
        matchSection (str "### Styling Framework") b2 →
      matchSection (str "### Project Structure") b1 =
        matchSection (str "### Project Structure") b2 →
      matchSection (str "### Project Description") b1 =
        matchSection (str "### Project Description") b2 →
      (∀ m ∈ featureMarkers, containsSub m b1 = containsSub m b2) →
      parseIssueBody b1 = parseIssueBody b2) := by
  refine ⟨?_, ?_, ?_, ?_, ?_, ?_⟩
  · intro body h
    simp [parseIssueBody, matchSection_none _ _ h]
  · intro body h
    simp [parseIssueBody, matchSection_none _ _ h]
  · intro body h
    simp [parseIssueBody, matchSection_none _ _ h]
  · intro body h
    have g1 := h (str "- [X] Routing") (by decide)
    have g2 := h (str "- [x] Routing") (by decide)
    have g3 := h (str "- [X] State Management") (by decide)
    have g4 := h (str "- [x] State Management") (by decide)
    have g5 := h (str "- [X] HTTP Client") (by decide)
    have g6 := h (str "- [x] HTTP Client") (by decide)
    have g7 := h (str "- [X] Forms") (by decide)
    have g8 := h (str "- [x] Forms") (by decide)
    have g9 := h (str "- [X] Authentication") (by decide)
    have g10 := h (str "- [x] Authentication") (by decide)
    have g11 := h (str "- [X] Unit Tests") (by decide)
    have g12 := h (str "- [x] Unit Tests") (by decide)
    have g13 := h (str "- [X] E2E Tests") (by decide)
    have g14 := h (str "- [x] E2E Tests") (by decide)
    have g15 := h (str "- [X] Docker") (by decide)
    have g16 := h (str "- [x] Docker") (by decide)
    have g17 := h (str "- [X] PWA") (by decide)
    have g18 := h (str "- [x] PWA") (by decide)
    simp [parseIssueBody, featureFlag, g1, g2, g3, g4, g5, g6, g7, g8, g9, g10,
      g11, g12, g13, g14, g15, g16, g17, g18]
  · intro body f hf
    simp only [parseIssueBody, List.mem_append] at hf
    rcases hf with ((((((((hf | hf) | hf) | hf) | hf) | hf) | hf) | hf) | hf) <;>
      rw [mem_featureFlag _ _ _ hf] <;> decide
  · intro b1 b2 hv hs ha hd hm
    have m1 := hm (str "- [X] Routing") (by decide)
    have m2 := hm (str "- [x] Routing") (by decide)
    have m3 := hm (str "- [X] State Management") (by decide)
    have m4 := hm (str "- [x] State Management") (by decide)
    have m5 := hm (str "- [X] HTTP Client") (by decide)
    have m6 := hm (str "- [x] HTTP Client") (by decide)
    have m7 := hm (str "- [X] Forms") (by decide)
    have m8 := hm (str "- [x] Forms") (by decide)
    have m9 := hm (str "- [X] Authentication") (by decide)
    have m10 := hm (str "- [x] Authentication") (by decide)
    have m11 := hm (str "- [X] Unit Tests") (by decide)
    have m12 := hm (str "- [x] Unit Tests") (by decide)
    have m13 := hm (str "- [X] E2E Tests") (by decide)
    have m14 := hm (str "- [x] E2E Tests") (by decide)
    have m15 := hm (str "- [X] Docker") (by decide)
    have m16 := hm (str "- [x] Docker") (by decide)
    have m17 := hm (str "- [X] PWA") (by decide)
    have m18 := hm (str "- [x] PWA") (by decide)
    simp only [parseIssueBody, hv, hs, ha, hd, m1, m2, m3, m4, m5, m6, m7, m8,
      m9, m10, m11, m12, m13, m14, m15, m16, m17, m18]

/-- Witness for C9: a body with no headings and no markers yields every
default; a body holding one checked marker yields a vocabulary feature; and
the order-independence conjunct instantiated at equal search outcomes. -/
theorem parseIssueBody_fields_witness :
    (parseIssueBody (str "hello")).version = str "Angular 17 (Latest)" ∧
    (parseIssueBody (str "hello")).styling = str "CSS" ∧
    (parseIssueBody (str "hello")).architecture = str "Standalone Components" ∧
    (parseIssueBody (str "hello")).features = [] ∧
    str "routing" ∈ featureNames ∧
    parseIssueBody (str "hello") = parseIssueBody (str "hello") :=
  ⟨parseIssueBody_fields.1 (str "hello") (by decide),
   parseIssueBody_fields.2.1 (str "hello") (by decide),
   parseIssueBody_fields.2.2.1 (str "hello") (by decide),
   parseIssueBody_fields.2.2.2.1 (str "hello") (fun m hm => by revert m hm; decide),
   parseIssueBody_fields.2.2.2.2.1 (str "- [x] Routing") (str "routing") (by decide),
   parseIssueBody_fields.2.2.2.2.2 (str "hello") (str "hello") rfl rfl rfl rfl
     (fun m hm => rfl)⟩

end AngularGen
